import Mathlib

/-!
A shallow embedding of the two-asset constant-product swap contract
(`src/contract.rs`, `src/tokens.rs`, `src/misc.rs`, `src/storage_management.rs`).

Machine integers are modelled as `Nat` with explicit bounds: every `u128`
checked operation succeeds exactly when the mathematical result fits below
`2 ^ 128`, every `U256` checked operation below `2 ^ 256`.

Host call semantics: every contract method runs inside one host call.  A
method that panics (directly via `env::panic_str`, or indirectly because the
`#[handle_result]` wrapper panics on an `Err` return) fails the whole call and
the host discards every state write the call made.  Panicking methods are
therefore embedded in two layers: a `_body` function that is the literal
sequential translation of the Rust body (returning the possibly partially
mutated state together with the pending panic message, which exhibits the
source's mutation order), and the committed-semantics function of the
source's name, which yields the new state only when the body finishes without
a panic.  Methods that never panic are embedded directly as total functions.
-/

namespace SwapContract

/-- Exclusive upper bound of `u128` values. -/
def u128Bound : Nat := 2 ^ 128

/-- Exclusive upper bound of `U256` values. -/
def u256Bound : Nat := 2 ^ 256

/-- `u128::checked_add`. -/
def u128_checked_add (a b : Nat) : Option Nat :=
  if a + b < u128Bound then some (a + b) else none

/-- `u128::checked_sub`. -/
def u128_checked_sub (a b : Nat) : Option Nat :=
  if b ≤ a then some (a - b) else none

/-- `U256::checked_add`. -/
def u256_checked_add (a b : Nat) : Option Nat :=
  if a + b < u256Bound then some (a + b) else none

/-- `U256::checked_mul`. -/
def u256_checked_mul (a b : Nat) : Option Nat :=
  if a * b < u256Bound then some (a * b) else none

/-- `U256::checked_sub`. -/
def u256_checked_sub (a b : Nat) : Option Nat :=
  if b ≤ a then some (a - b) else none

/-- `U256::checked_div`: `none` exactly on division by zero, otherwise the
truncating division of the nonnegative values. -/
def u256_checked_div (a b : Nat) : Option Nat :=
  if b = 0 then none else some (a / b)

/-- `U256::as_u128` panics when the value does not fit into 128 bits. -/
def u256_as_u128 (a : Nat) : Except String Nat :=
  if a < u128Bound then Except.ok a
  else Except.error "Integer overflow when casting to u128"

/-- The fields of the NEP-148 `FungibleTokenMetadata` record that the contract
actually reads (`symbol` in log messages, `decimals` in the pool view); the
remaining fields are never inspected by the contract. -/
structure FungibleTokenMetadata where
  symbol : String
  decimals : Nat
deriving Repr, DecidableEq

/-- `TokenWallet` from `src/tokens.rs`. -/
structure TokenWallet where
  token_id : String
  metadata : FungibleTokenMetadata
  deposit : Nat
  liquidity : Nat
deriving Repr, DecidableEq

/-- `TokenWallet::new`. -/
def TokenWallet.new (token_id : String) (metadata : FungibleTokenMetadata) :
    TokenWallet :=
  { token_id := token_id, metadata := metadata, deposit := 0, liquidity := 0 }

/-- `RunningState` from `src/misc.rs`. -/
inductive RunningState where
  | Running
  | Paused
deriving Repr, DecidableEq

/-- Modelled from the spec: the account record of the out-of-scope
storage-collateral component (its source file `src/account.rs` is not among
the core sources); the spec describes it as "a registration/collateral record
keyed by caller identity", so only the storage balance is tracked. -/
structure Account where
  storage_balance : Nat
deriving Repr, DecidableEq

/-- `StorageBalance` of the storage-management standard. -/
structure StorageBalance where
  total : Nat
  available : Nat
deriving Repr, DecidableEq

/-- The `Contract` state from `src/contract.rs`.  The `accounts` lookup map is
modelled as an association list. -/
structure Contract where
  owner_id : String
  running_state : RunningState
  accounts : List (String × Account)
  token1_wallet : Option TokenWallet
  token2_wallet : Option TokenWallet
deriving Repr, DecidableEq

/-- `Contract::is_owner`. -/
def Contract.is_owner (c : Contract) (account_id : String) : Bool :=
  account_id = c.owner_id

/-- `Contract::get_account`. -/
def Contract.get_account (c : Contract) (account_id : String) :
    Except String Account :=
  match c.accounts.lookup account_id with
  | some a => Except.ok a
  | none => Except.error "Account is not registered"

/-- `compute_tokens_ratio` from `src/misc.rs`. -/
def compute_tokens_ratio (token1_amount token2_amount : Nat) :
    Except String Nat :=
  match u256_checked_mul token1_amount token2_amount with
  | some r => Except.ok r
  | none => Except.error "Computation overflow"

/-- `Contract::get_swap_tokens_wallets_mut`: returns the input wallet, the
output wallet, and whether slot 1 is the input side.  The source matches
`token_id_in.cmp(&token1_wallet.token_id)` and sends every non-`Equal`
ordering — i.e. every id other than the slot-1 id — to the slot-2 branch. -/
def get_swap_tokens_wallets (c : Contract) (token_id_in : String) :
    Except String (TokenWallet × TokenWallet × Bool) :=
  match c.token1_wallet, c.token2_wallet with
  | none, _ => Except.error "Token1 wallet is not registered"
  | some _, none => Except.error "Token2 wallet is not registered"
  | some w1, some w2 =>
    if token_id_in = w1.token_id then Except.ok (w1, w2, true)
    else Except.ok (w2, w1, false)

/-- `Contract::get_token_wallet_mut`: the returned flag records whether the
borrowed wallet is the slot-1 wallet (the target slot of the caller's
write-back). -/
def get_token_wallet (c : Contract) (token_id : String) :
    Except String (TokenWallet × Bool) :=
  match c.token1_wallet, c.token2_wallet with
  | none, _ => Except.error "Token1 wallet is not registered"
  | some _, none => Except.error "Token2 wallet is not registered"
  | some w1, some w2 =>
    if token_id = w1.token_id then Except.ok (w1, true)
    else if token_id = w2.token_id then Except.ok (w2, false)
    else Except.error "Token is not supported"

/-- The argument bundle of the promise chain built at the end of
`swap_tokens`: an `ft_transfer` of `amount_out` on the output token contract,
continued by `on_swap_complete` with the staged wallets. -/
structure SwapTransfer where
  receiver_id : String
  token_id_out : String
  amount_out : Nat
  token_wallet_in_new : TokenWallet
  token_wallet_out_new : TokenWallet
  token1_is_input : Bool
  amount_in : Nat
deriving Repr, DecidableEq

/-- `SwapProvider::swap_tokens` from `src/tokens.rs`.  The synchronous phase
only reads the pool state; on success it returns the pending external transfer
together with the staged wallet snapshots, and every check precedes that
return. -/
def swap_tokens (c : Contract) (sender_id token_id_in : String)
    (amount_in : Nat) : Except String SwapTransfer :=
  match get_swap_tokens_wallets c token_id_in with
  | Except.error e => Except.error e
  | Except.ok (token_wallet_in, token_wallet_out, token1_is_input) =>
    match compute_tokens_ratio token_wallet_in.liquidity
        token_wallet_out.liquidity with
    | Except.error e => Except.error e
    | Except.ok r =>
      let step : Option Nat :=
        if token1_is_input then
          (u256_checked_add token_wallet_in.liquidity amount_in).bind fun sum =>
            (u256_checked_div r sum).bind fun res =>
              u256_checked_sub token_wallet_out.liquidity res
        else
          (u256_checked_sub token_wallet_in.liquidity amount_in).bind fun sub =>
            (u256_checked_div r sub).bind fun res =>
              u256_checked_sub res token_wallet_out.liquidity
      match step with
      | none => Except.error "Computation overflow"
      | some v =>
        match u256_as_u128 v with
        | Except.error e => Except.error e
        | Except.ok amount_out =>
          match u128_checked_add token_wallet_in.liquidity amount_in with
          | none => Except.error "Input token liquidity overflow"
          | some in_liq =>
            match u128_checked_sub token_wallet_out.liquidity amount_out with
            | none => Except.error "Output token liquidity overflow"
            | some out_liq =>
              Except.ok
                { receiver_id := sender_id
                  token_id_out := token_wallet_out.token_id
                  amount_out := amount_out
                  token_wallet_in_new :=
                    { token_wallet_in with liquidity := in_liq }
                  token_wallet_out_new :=
                    { token_wallet_out with liquidity := out_liq }
                  token1_is_input := token1_is_input
                  amount_in := amount_in }

/-- `SwapProvider::on_swap_complete`: commits the staged wallets when the
external transfer succeeded (refund 0), otherwise leaves the state untouched
and reports `amount_in` as the refund. -/
def on_swap_complete (c : Contract)
    (token_wallet_in token_wallet_out : TokenWallet)
    (token1_is_input : Bool) (amount_in : Nat) (transfer_ok : Bool) :
    Contract × Nat :=
  if transfer_ok then
    if token1_is_input then
      ({ c with token1_wallet := some token_wallet_in,
                token2_wallet := some token_wallet_out }, 0)
    else
      ({ c with token1_wallet := some token_wallet_out,
                token2_wallet := some token_wallet_in }, 0)
  else (c, amount_in)

/-- `Contract::on_transfer_deposit`: owner-only deposit crediting.  The only
state write is the checked deposit increment, and it is guarded by `?`, so an
error leaves the state untouched even without host-level rollback. -/
def on_transfer_deposit (c : Contract) (sender_id token_id : String)
    (amount : Nat) : Except String Contract :=
  if ¬ c.is_owner sender_id then
    Except.error "Deposit can be added only by contract owner"
  else
    match get_token_wallet c token_id with
    | Except.error e => Except.error e
    | Except.ok (token_wallet, is_token1) =>
      match u128_checked_add token_wallet.deposit amount with
      | none => Except.error "Token deposit overflow"
      | some d =>
        let w := { token_wallet with deposit := d }
        if is_token1 then
          Except.ok { c with token1_wallet := some w }
        else
          Except.ok { c with token2_wallet := some w }

/-- The `PromiseOrValue<U128>` outcome of `ft_on_transfer`: either an
immediate refund value, or the pending swap promise chain. -/
inductive FtOnTransferOutcome where
  | value (refund : Nat)
  | pending (t : SwapTransfer)
deriving Repr, DecidableEq

/-- `FungibleTokenReceiver::ft_on_transfer`.  `token_id` is the predecessor
account (the calling token contract) and `msg_is_swap` stands for the test
that `serde_json::from_str::<TransferCommand>(&msg)` parses to the
`{ "type": "swap" }` command; any other message routes to the deposit path.
Any error of the routed handler is caught and converted into a refund of the
whole transferred amount, with the state left as the handler left it (neither
handler mutates state before failing). -/
def ft_on_transfer (c : Contract) (sender_id token_id : String) (amount : Nat)
    (msg_is_swap : Bool) : Contract × FtOnTransferOutcome :=
  if msg_is_swap then
    match swap_tokens c sender_id token_id amount with
    | Except.ok t => (c, FtOnTransferOutcome.pending t)
    | Except.error _ => (c, FtOnTransferOutcome.value amount)
  else
    match on_transfer_deposit c sender_id token_id amount with
    | Except.ok c2 => (c2, FtOnTransferOutcome.value 0)
    | Except.error _ => (c, FtOnTransferOutcome.value amount)

/-- Literal sequential body of `Contract::add_liquidity`: state writes happen
in source order, so a failure after the first write returns a partially
mutated state together with the panic message that `#[handle_result]` will
raise. -/
def add_liquidity_body (c : Contract) (predecessor : String)
    (amounts : Nat × Nat) : Contract × Option String :=
  if ¬ c.is_owner predecessor then (c, some "Not allowed")
  else
    match c.token1_wallet, c.token2_wallet with
    | none, _ => (c, some "Token1 wallet is not created")
    | some _, none => (c, some "Token2 wallet is not created")
    | some w1, some w2 =>
      match u128_checked_sub w1.deposit amounts.1 with
      | none => (c, some "Not enough deposit for Token1")
      | some d1 =>
        let ca := { c with token1_wallet := some { w1 with deposit := d1 } }
        match u128_checked_sub w2.deposit amounts.2 with
        | none => (ca, some "Not enough deposit for Token2")
        | some d2 =>
          let cb := { ca with token2_wallet := some { w2 with deposit := d2 } }
          match u128_checked_add w1.liquidity amounts.1 with
          | none => (cb, some "Liquidity overflow for Token1")
          | some l1 =>
            let w1b := { w1 with deposit := d1, liquidity := l1 }
            let cc := { cb with token1_wallet := some w1b }
            match u128_checked_add w2.liquidity amounts.2 with
            | none => (cc, some "Liquidity overflow for Token2")
            | some l2 =>
              let w2b := { w2 with deposit := d2, liquidity := l2 }
              ({ cc with token2_wallet := some w2b }, none)

/-- `Contract::add_liquidity` with committed host semantics: an `Err` return
panics through `#[handle_result]`, failing the call, so only a body that
finishes without a panic commits its writes. -/
def add_liquidity (c : Contract) (predecessor : String) (amounts : Nat × Nat) :
    Except String Contract :=
  match add_liquidity_body c predecessor amounts with
  | (c2, none) => Except.ok c2
  | (_, some e) => Except.error e

/-- Literal sequential body of `Contract::remove_liquidity`. -/
def remove_liquidity_body (c : Contract) (predecessor : String)
    (amounts : Nat × Nat) : Contract × Option String :=
  if ¬ c.is_owner predecessor then (c, some "Not allowed")
  else
    match c.token1_wallet, c.token2_wallet with
    | none, _ => (c, some "Token1 wallet is not created")
    | some _, none => (c, some "Token2 wallet is not created")
    | some w1, some w2 =>
      match u128_checked_sub w1.liquidity amounts.1 with
      | none => (c, some "Not enough liquidity for Token1")
      | some l1 =>
        let ca := { c with token1_wallet := some { w1 with liquidity := l1 } }
        match u128_checked_sub w2.liquidity amounts.2 with
        | none => (ca, some "Not enough liquidity for Token2")
        | some l2 =>
          let cb := { ca with token2_wallet := some { w2 with liquidity := l2 } }
          match u128_checked_add w1.deposit amounts.1 with
          | none => (cb, some "Deposit overflow for Token1")
          | some d1 =>
            let w1b := { w1 with deposit := d1, liquidity := l1 }
            let cc := { cb with token1_wallet := some w1b }
            match u128_checked_add w2.deposit amounts.2 with
            | none => (cc, some "Deposit overflow for Token2")
            | some d2 =>
              let w2b := { w2 with deposit := d2, liquidity := l2 }
              ({ cc with token2_wallet := some w2b }, none)

/-- `Contract::remove_liquidity` with committed host semantics. -/
def remove_liquidity (c : Contract) (predecessor : String)
    (amounts : Nat × Nat) : Except String Contract :=
  match remove_liquidity_body c predecessor amounts with
  | (c2, none) => Except.ok c2
  | (_, some e) => Except.error e

/-- Literal sequential body of
`TokenWalletProvider::on_created_tokens_wallets`.  Each callback result is
`none` when the corresponding promise failed.  The source checks the slot-1
registration, installs the slot-1 wallet, then checks the slot-2 registration
and installs the slot-2 wallet; each failed check is an `env::panic_str`. -/
def on_created_tokens_wallets_body (c : Contract)
    (token1_id token2_id : String)
    (token1_metadata : Option FungibleTokenMetadata)
    (token1_wallet_storage_balance : Option StorageBalance)
    (token2_metadata : Option FungibleTokenMetadata)
    (token2_wallet_storage_balance : Option StorageBalance) :
    Contract × Option String :=
  match token1_wallet_storage_balance with
  | none => (c, some "Token1 wallet failed to register")
  | some _ =>
    match token1_metadata with
    | none => (c, some "Failed to fetch Token1 metadata")
    | some m1 =>
      let ca := { c with token1_wallet := some (TokenWallet.new token1_id m1) }
      match token2_wallet_storage_balance with
      | none => (ca, some "Token2 wallet failed to register")
      | some _ =>
        match token2_metadata with
        | none => (ca, some "Failed to fetch Token2 metadata")
        | some m2 =>
          ({ ca with token2_wallet := some (TokenWallet.new token2_id m2) },
            none)

/-- `on_created_tokens_wallets` with committed host semantics: a panic fails
the callback and the host discards its writes, so nothing is installed unless
all four callback results succeeded. -/
def on_created_tokens_wallets (c : Contract) (token1_id token2_id : String)
    (token1_metadata : Option FungibleTokenMetadata)
    (token1_wallet_storage_balance : Option StorageBalance)
    (token2_metadata : Option FungibleTokenMetadata)
    (token2_wallet_storage_balance : Option StorageBalance) :
    Except String Contract :=
  match on_created_tokens_wallets_body c token1_id token2_id token1_metadata
      token1_wallet_storage_balance token2_metadata
      token2_wallet_storage_balance with
  | (c2, none) => Except.ok c2
  | (_, some e) => Except.error e

/-- One NEAR in yocto units. -/
def ONE_NEAR : Nat := 10 ^ 24

/-- `Contract::owner_create_wallets`: checks the attached collateral and the
caller, then only issues the metadata-fetch and registration promises via
`create_wallets` — the synchronous phase writes no state. -/
def owner_create_wallets (c : Contract) (predecessor : String)
    (attached_deposit : Nat) (_token1 _token2 : String) :
    Except String Contract :=
  if ¬ attached_deposit = 2 * ONE_NEAR then
    Except.error "Requires exactly 2 NEAR to create wallets"
  else if ¬ c.is_owner predecessor then Except.error "Not allowed"
  else Except.ok c

/-- `PoolView` from `src/tokens.rs` (the source renders the product as a
decimal string; the numeric value is kept here). -/
structure PoolView where
  token_ids : String × String
  decimals : Nat × Nat
  amounts : Nat × Nat
  pool_product : Nat
deriving Repr, DecidableEq

/-- `Contract::get_pool`. -/
def get_pool (c : Contract) : Except String PoolView :=
  match c.token1_wallet, c.token2_wallet with
  | none, _ => Except.error "Token1 wallet is not created"
  | some _, none => Except.error "Token2 wallet is not created"
  | some w1, some w2 =>
    match compute_tokens_ratio w1.liquidity w2.liquidity with
    | Except.error e => Except.error e
    | Except.ok r =>
      Except.ok
        { token_ids := (w1.token_id, w2.token_id)
          decimals := (w1.metadata.decimals, w2.metadata.decimals)
          amounts := (w1.liquidity, w2.liquidity)
          pool_product := r }

/-- Insertion into the `accounts` lookup map. -/
def accounts_insert (l : List (String × Account)) (account_id : String)
    (a : Account) : List (String × Account) :=
  (account_id, a) :: l.filter (fun p => p.1 != account_id)

/-- `StorageManagement::storage_deposit` from `src/storage_management.rs`.
`min_balance` stands for `Account::required_deposit(None)` — modelled from the
spec, since the account component's source file is not among the core sources.
The `StorageBalance` return value and the refund promises are irrelevant to
the pool claims and omitted.  All failure branches are panics, so an error
commits nothing. -/
def storage_deposit (c : Contract) (predecessor : String)
    (attached_deposit : Nat) (account_id : Option String)
    (registration_only : Option Bool) (min_balance : Nat) :
    Except String Contract :=
  if ¬ c.running_state = RunningState.Running then
    Except.error "Contract paused"
  else if attached_deposit = 0 then Except.error "No deposit provided"
  else
    let accId := account_id.getD predecessor
    let regOnly := registration_only.getD false
    match c.get_account accId, regOnly with
    | Except.ok a, true =>
      Except.ok { c with accounts := accounts_insert c.accounts accId a }
    | Except.ok a, false =>
      match u128_checked_add a.storage_balance attached_deposit with
      | none => Except.error "Storage balance overflow"
      | some b =>
        let acc := accounts_insert c.accounts accId { storage_balance := b }
        Except.ok { c with accounts := acc }
    | Except.error _, true =>
      if attached_deposit < min_balance then
        Except.error "Not enough minimum deposit to register account"
      else
        let acc :=
          accounts_insert c.accounts accId { storage_balance := min_balance }
        Except.ok { c with accounts := acc }
    | Except.error _, false =>
      let acc :=
        accounts_insert c.accounts accId { storage_balance := attached_deposit }
      Except.ok { c with accounts := acc }

/-- Modelled from the spec: `Account::storage_balance()` of the out-of-scope
storage component — the total collateral with the registration minimum locked
(`src/account.rs` is not among the core sources). -/
def Account.storage_balance_view (a : Account) (min_balance : Nat) :
    StorageBalance :=
  { total := a.storage_balance, available := a.storage_balance - min_balance }

/-- `StorageManagement::storage_withdraw`.  Requires exactly one attached
yocto; every failure branch is a panic. -/
def storage_withdraw (c : Contract) (predecessor : String)
    (attached_deposit : Nat) (amount : Option Nat) (min_balance : Nat) :
    Except String Contract :=
  if ¬ attached_deposit = 1 then
    Except.error "Requires attached deposit of exactly 1 yoctoNEAR"
  else if ¬ c.running_state = RunningState.Running then
    Except.error "Contract paused"
  else
    match c.get_account predecessor with
    | Except.error e => Except.error e
    | Except.ok a =>
      let sb := a.storage_balance_view min_balance
      let withdraw_amount := amount.getD sb.available
      match u128_checked_sub sb.available withdraw_amount with
      | none => Except.error "Not enough available storage to withdraw"
      | some _ =>
        match u128_checked_sub sb.total withdraw_amount with
        | none => Except.error "Withdraw storage balance overflow"
        | some t =>
          let acc :=
            accounts_insert c.accounts predecessor { storage_balance := t }
          Except.ok { c with accounts := acc }

/-- `StorageManagement::storage_unregister`. -/
def storage_unregister (c : Contract) (predecessor : String)
    (attached_deposit : Nat) (force : Option Bool) :
    Except String (Contract × Bool) :=
  if ¬ attached_deposit = 1 then
    Except.error "Requires attached deposit of exactly 1 yoctoNEAR"
  else if ¬ c.running_state = RunningState.Running then
    Except.error "Contract paused"
  else
    match c.get_account predecessor with
    | Except.error _ => Except.ok (c, false)
    | Except.ok a =>
      if a.storage_balance > 0 ∧ ¬ (force.getD false) then
        Except.error
          "Unable to unregister a positive balance account without force"
      else
        Except.ok
          ({ c with accounts :=
            c.accounts.filter (fun p => p.1 != predecessor) }, true)

/-- The chain state after a host call to a panicking method: the method's new
state when the call succeeds, the unchanged pre-call state when the call
panicked. -/
def call_result (c : Contract) (r : Except String Contract) : Contract :=
  match r with
  | Except.ok c2 => c2
  | Except.error _ => c

/-- A sample pool state used by the concrete theorems: owner "owner", slot-1
wallet for "token-a" and slot-2 wallet for "token-b" with the given liquidity
and deposit balances. -/
def sampleMeta : FungibleTokenMetadata := { symbol := "TKN", decimals := 6 }

/-- See `sampleMeta`. -/
def sampleContract (l1 l2 d1 d2 : Nat) : Contract :=
  { owner_id := "owner"
    running_state := RunningState.Running
    accounts := []
    token1_wallet := some
      { token_id := "token-a", metadata := sampleMeta
        deposit := d1, liquidity := l1 }
    token2_wallet := some
      { token_id := "token-b", metadata := sampleMeta
        deposit := d2, liquidity := l2 } }

/-- A sample contract state with no wallets provisioned yet. -/
def emptyContract : Contract :=
  { owner_id := "owner"
    running_state := RunningState.Running
    accounts := []
    token1_wallet := none
    token2_wallet := none }

/-! ## Helper lemmas -/

/-- Inversion of a successful `swap_tokens` whose input is the slot-1 wallet:
closed forms of every field of the pending transfer, and the side conditions
the checked arithmetic guarantees. -/
lemma swap_tokens_ok_slot1 {c : Contract} {w1 w2 : TokenWallet}
    {sender tin : String} {a : Nat} {t : SwapTransfer}
    (h1 : c.token1_wallet = some w1) (h2 : c.token2_wallet = some w2)
    (htin : tin = w1.token_id)
    (hok : swap_tokens c sender tin a = Except.ok t) :
    t.receiver_id = sender ∧ t.token_id_out = w2.token_id ∧
    t.token1_is_input = true ∧ t.amount_in = a ∧
    t.amount_out =
      w2.liquidity - w1.liquidity * w2.liquidity / (w1.liquidity + a) ∧
    t.token_wallet_in_new = { w1 with liquidity := w1.liquidity + a } ∧
    t.token_wallet_out_new =
      { w2 with liquidity :=
          w1.liquidity * w2.liquidity / (w1.liquidity + a) } ∧
    0 < w1.liquidity + a ∧ w1.liquidity + a < u128Bound ∧
    w1.liquidity * w2.liquidity / (w1.liquidity + a) ≤ w2.liquidity := by
  subst htin
  simp only [swap_tokens, get_swap_tokens_wallets, h1, h2, if_pos,
    compute_tokens_ratio, u256_checked_mul, u256_checked_add,
    u256_checked_div, u256_checked_sub, u256_as_u128, u128_checked_add,
    u128_checked_sub, Option.bind] at hok
  repeat' (split at hok <;> try simp at hok)
  rename_i x4 r hr x3 ol2 hchain x2 amt hamt x1 inl hin x0 outl hout
  subst hok
  obtain ⟨hKb, hrK⟩ : w1.liquidity * w2.liquidity < u256Bound ∧
      r = w1.liquidity * w2.liquidity := by
    by_cases hp : w1.liquidity * w2.liquidity < u256Bound
    · simp [hp] at hr
      exact ⟨hp, hr.symm⟩
    · simp [hp] at hr
  obtain ⟨hsumb, hz, hresle, holv⟩ : (w1.liquidity + a < u256Bound) ∧
      ¬ (w1.liquidity + a = 0) ∧
      r / (w1.liquidity + a) ≤ w2.liquidity ∧
      ol2 = w2.liquidity - r / (w1.liquidity + a) := by
    by_cases hp : w1.liquidity + a < u256Bound
    · simp only [hp, if_true] at hchain
      by_cases hq : w1.liquidity + a = 0
      · simp [hq] at hchain
      · simp only [hq, if_false] at hchain
        by_cases hs : r / (w1.liquidity + a) ≤ w2.liquidity
        · simp [hs] at hchain
          exact ⟨hp, hq, hs, hchain.symm⟩
        · simp [hs] at hchain
    · simp [hp] at hchain
  obtain ⟨hfit, hamtv⟩ : ol2 < u128Bound ∧ amt = ol2 := by
    by_cases hp : ol2 < u128Bound
    · simp [hp] at hamt
      exact ⟨hp, hamt.symm⟩
    · simp [hp] at hamt
  obtain ⟨hinb, hinv⟩ : w1.liquidity + a < u128Bound ∧
      inl = w1.liquidity + a := by
    by_cases hp : w1.liquidity + a < u128Bound
    · simp [hp] at hin
      exact ⟨hp, hin.symm⟩
    · simp [hp] at hin
  obtain ⟨houtle, houtv⟩ : amt ≤ w2.liquidity ∧ outl = w2.liquidity - amt := by
    by_cases hp : amt ≤ w2.liquidity
    · simp [hp] at hout
      exact ⟨hp, hout.symm⟩
    · simp [hp] at hout
  subst hrK
  subst holv
  subst hamtv
  subst hinv
  have houtval : outl = w1.liquidity * w2.liquidity / (w1.liquidity + a) := by
    omega
  subst houtval
  refine ⟨rfl, rfl, rfl, rfl, rfl, rfl, rfl, by omega, hinb, hresle⟩

/-- Inversion of a successful `swap_tokens` whose input asset id differs from
the slot-1 wallet id (the source's slot-2 branch): closed forms of every field
of the pending transfer, and the side conditions the checked arithmetic
guarantees. -/
lemma swap_tokens_ok_slot2 {c : Contract} {w1 w2 : TokenWallet}
    {sender tin : String} {a : Nat} {t : SwapTransfer}
    (h1 : c.token1_wallet = some w1) (h2 : c.token2_wallet = some w2)
    (htin : ¬ tin = w1.token_id)
    (hok : swap_tokens c sender tin a = Except.ok t) :
    t.receiver_id = sender ∧ t.token_id_out = w1.token_id ∧
    t.token1_is_input = false ∧ t.amount_in = a ∧
    t.amount_out =
      w2.liquidity * w1.liquidity / (w2.liquidity - a) - w1.liquidity ∧
    t.token_wallet_in_new = { w2 with liquidity := w2.liquidity + a } ∧
    t.token_wallet_out_new =
      { w1 with liquidity := w1.liquidity -
          (w2.liquidity * w1.liquidity / (w2.liquidity - a) -
            w1.liquidity) } ∧
    a ≤ w2.liquidity ∧ ¬ (w2.liquidity - a = 0) ∧
    w1.liquidity ≤ w2.liquidity * w1.liquidity / (w2.liquidity - a) ∧
    t.amount_out < u128Bound ∧
    w2.liquidity + a < u128Bound ∧
    t.amount_out ≤ w1.liquidity := by
  simp only [swap_tokens, get_swap_tokens_wallets, h1, h2, htin, if_false,
    compute_tokens_ratio, u256_checked_mul, u256_checked_add,
    u256_checked_div, u256_checked_sub, u256_as_u128, u128_checked_add,
    u128_checked_sub, Option.bind] at hok
  repeat' (split at hok <;> try simp at hok)
  rename_i x4 r hr x3 ol2 hchain x2 amt hamt x1 inl hin x0 outl hout
  subst hok
  obtain ⟨hKb, hrK⟩ : w2.liquidity * w1.liquidity < u256Bound ∧
      r = w2.liquidity * w1.liquidity := by
    by_cases hp : w2.liquidity * w1.liquidity < u256Bound
    · simp [hp] at hr
      exact ⟨hp, hr.symm⟩
    · simp [hp] at hr
  obtain ⟨hsuble, hz, hresge, holv⟩ : (a ≤ w2.liquidity) ∧
      ¬ (w2.liquidity - a = 0) ∧
      w1.liquidity ≤ r / (w2.liquidity - a) ∧
      ol2 = r / (w2.liquidity - a) - w1.liquidity := by
    by_cases hp : a ≤ w2.liquidity
    · simp only [hp, if_true] at hchain
      by_cases hq : w2.liquidity - a = 0
      · simp [hq] at hchain
      · simp only [hq, if_false] at hchain
        by_cases hs : w1.liquidity ≤ r / (w2.liquidity - a)
        · simp [hs] at hchain
          exact ⟨hp, hq, hs, hchain.symm⟩
        · simp [hs] at hchain
    · simp [hp] at hchain
  obtain ⟨hfit, hamtv⟩ : ol2 < u128Bound ∧ amt = ol2 := by
    by_cases hp : ol2 < u128Bound
    · simp [hp] at hamt
      exact ⟨hp, hamt.symm⟩
    · simp [hp] at hamt
  obtain ⟨hinb, hinv⟩ : w2.liquidity + a < u128Bound ∧
      inl = w2.liquidity + a := by
    by_cases hp : w2.liquidity + a < u128Bound
    · simp [hp] at hin
      exact ⟨hp, hin.symm⟩
    · simp [hp] at hin
  obtain ⟨houtle, houtv⟩ : amt ≤ w1.liquidity ∧ outl = w1.liquidity - amt := by
    by_cases hp : amt ≤ w1.liquidity
    · simp [hp] at hout
      exact ⟨hp, hout.symm⟩
    · simp [hp] at hout
  subst hrK
  subst holv
  subst hamtv
  subst hinv
  subst houtv
  exact ⟨rfl, rfl, rfl, rfl, rfl, rfl, rfl, hsuble, hz, hresge, hfit, hinb,
    houtle⟩

/-- `u128` values multiply below the `U256` bound. -/
lemma mul_lt_u256Bound {x y : Nat} (hx : x < u128Bound) (hy : y < u128Bound) :
    x * y < u256Bound := by
  have h := Nat.mul_lt_mul'' hx hy
  have hb : u128Bound * u128Bound = u256Bound := by
    unfold u128Bound u256Bound
    rw [← pow_add]
  exact hb ▸ h

/-- A successful `swap_tokens` carries its own `amount_in` argument into the
pending callback. -/
lemma swap_tokens_ok_amount_in {c : Contract} {s tk : String} {a : Nat}
    {t : SwapTransfer} (hok : swap_tokens c s tk a = Except.ok t) :
    t.amount_in = a := by
  simp only [swap_tokens] at hok
  repeat' (split at hok <;> try simp at hok)
  all_goals (rw [← hok])

/-- Inversion of a successful `add_liquidity`: both wallets exist, both
deposit checks and both liquidity-overflow checks passed, and both wallets
are updated. -/
lemma add_liquidity_ok_inv {c : Contract} {p : String} {amts : Nat × Nat}
    {c2 : Contract} (h : add_liquidity c p amts = Except.ok c2) :
    ∃ w1 w2, c.token1_wallet = some w1 ∧ c.token2_wallet = some w2 ∧
      p = c.owner_id ∧
      amts.1 ≤ w1.deposit ∧ amts.2 ≤ w2.deposit ∧
      w1.liquidity + amts.1 < u128Bound ∧
      w2.liquidity + amts.2 < u128Bound ∧
      c2.owner_id = c.owner_id ∧ c2.running_state = c.running_state ∧
      c2.accounts = c.accounts ∧
      c2.token1_wallet = some
        { token_id := w1.token_id
          metadata := w1.metadata
          deposit := w1.deposit - amts.1
          liquidity := w1.liquidity + amts.1 } ∧
      c2.token2_wallet = some
        { token_id := w2.token_id
          metadata := w2.metadata
          deposit := w2.deposit - amts.2
          liquidity := w2.liquidity + amts.2 } := by
  simp only [add_liquidity, add_liquidity_body, Contract.is_owner,
    u128_checked_sub, u128_checked_add] at h
  repeat' (split at h <;> try simp at h)
  rename_i x cb heq
  subst h
  repeat' (split at heq <;> try simp at heq)
  rename_i hown q1 q2 w1 w2 hw1 hw2 q3 d1 hd1 q4 d2 hd2 q5 l1 hl1 q6 l2 hl2
  subst heq
  have hp : p = c.owner_id := by simpa using hown
  obtain ⟨hd1c, hd1v⟩ : amts.1 ≤ w1.deposit ∧ d1 = w1.deposit - amts.1 := by
    by_cases hq : amts.1 ≤ w1.deposit
    · simp [hq] at hd1
      exact ⟨hq, hd1.symm⟩
    · simp [hq] at hd1
  obtain ⟨hd2c, hd2v⟩ : amts.2 ≤ w2.deposit ∧ d2 = w2.deposit - amts.2 := by
    by_cases hq : amts.2 ≤ w2.deposit
    · simp [hq] at hd2
      exact ⟨hq, hd2.symm⟩
    · simp [hq] at hd2
  obtain ⟨hl1c, hl1v⟩ : w1.liquidity + amts.1 < u128Bound ∧
      l1 = w1.liquidity + amts.1 := by
    by_cases hq : w1.liquidity + amts.1 < u128Bound
    · simp [hq] at hl1
      exact ⟨hq, hl1.symm⟩
    · simp [hq] at hl1
  obtain ⟨hl2c, hl2v⟩ : w2.liquidity + amts.2 < u128Bound ∧
      l2 = w2.liquidity + amts.2 := by
    by_cases hq : w2.liquidity + amts.2 < u128Bound
    · simp [hq] at hl2
      exact ⟨hq, hl2.symm⟩
    · simp [hq] at hl2
  subst hd1v
  subst hd2v
  subst hl1v
  subst hl2v
  exact ⟨w1, w2, hw1, hw2, hp, hd1c, hd2c, hl1c, hl2c, rfl, rfl, rfl, rfl,
    rfl⟩

/-- Inversion of a successful `remove_liquidity`: both wallets exist, both
liquidity checks and both deposit-overflow checks passed, and both wallets
are updated. -/
lemma remove_liquidity_ok_inv {c : Contract} {p : String} {amts : Nat × Nat}
    {c2 : Contract} (h : remove_liquidity c p amts = Except.ok c2) :
    ∃ w1 w2, c.token1_wallet = some w1 ∧ c.token2_wallet = some w2 ∧
      p = c.owner_id ∧
      amts.1 ≤ w1.liquidity ∧ amts.2 ≤ w2.liquidity ∧
      w1.deposit + amts.1 < u128Bound ∧
      w2.deposit + amts.2 < u128Bound ∧
      c2.owner_id = c.owner_id ∧ c2.running_state = c.running_state ∧
      c2.accounts = c.accounts ∧
      c2.token1_wallet = some
        { token_id := w1.token_id
          metadata := w1.metadata
          deposit := w1.deposit + amts.1
          liquidity := w1.liquidity - amts.1 } ∧
      c2.token2_wallet = some
        { token_id := w2.token_id
          metadata := w2.metadata
          deposit := w2.deposit + amts.2
          liquidity := w2.liquidity - amts.2 } := by
  simp only [remove_liquidity, remove_liquidity_body, Contract.is_owner,
    u128_checked_sub, u128_checked_add] at h
  repeat' (split at h <;> try simp at h)
  rename_i x cb heq
  subst h
  repeat' (split at heq <;> try simp at heq)
  rename_i hown q1 q2 w1 w2 hw1 hw2 q3 l1 hl1 q4 l2 hl2 q5 d1 hd1 q6 d2 hd2
  subst heq
  have hp : p = c.owner_id := by simpa using hown
  obtain ⟨hl1c, hl1v⟩ : amts.1 ≤ w1.liquidity ∧
      l1 = w1.liquidity - amts.1 := by
    by_cases hq : amts.1 ≤ w1.liquidity
    · simp [hq] at hl1
      exact ⟨hq, hl1.symm⟩
    · simp [hq] at hl1
  obtain ⟨hl2c, hl2v⟩ : amts.2 ≤ w2.liquidity ∧
      l2 = w2.liquidity - amts.2 := by
    by_cases hq : amts.2 ≤ w2.liquidity
    · simp [hq] at hl2
      exact ⟨hq, hl2.symm⟩
    · simp [hq] at hl2
  obtain ⟨hd1c, hd1v⟩ : w1.deposit + amts.1 < u128Bound ∧
      d1 = w1.deposit + amts.1 := by
    by_cases hq : w1.deposit + amts.1 < u128Bound
    · simp [hq] at hd1
      exact ⟨hq, hd1.symm⟩
    · simp [hq] at hd1
  obtain ⟨hd2c, hd2v⟩ : w2.deposit + amts.2 < u128Bound ∧
      d2 = w2.deposit + amts.2 := by
    by_cases hq : w2.deposit + amts.2 < u128Bound
    · simp [hq] at hd2
      exact ⟨hq, hd2.symm⟩
    · simp [hq] at hd2
  subst hl1v
  subst hl2v
  subst hd1v
  subst hd2v
  exact ⟨w1, w2, hw1, hw2, hp, hl1c, hl2c, hd1c, hd2c, rfl, rfl, rfl, rfl,
    rfl⟩

/-! ## Claim theorems -/

/-- C3: for every swap computation with both wallets present and
K = L_in * L_out, a successfully returned `amount_out` equals
`L_out − K / (L_in + amount_in)` when the input asset is the slot-1 wallet and
`K / (L_in − amount_in) − L_out` when it is the slot-2 wallet (with distinct
wallet ids), the division being truncating integer division (`Nat` floor
division on nonnegative values). -/
theorem c3_swap_amount_out_formula (c : Contract) (w1 w2 : TokenWallet)
    (sender token_id_in : String) (amount_in : Nat) (t : SwapTransfer)
    (h1 : c.token1_wallet = some w1) (h2 : c.token2_wallet = some w2)
    (hok : swap_tokens c sender token_id_in amount_in = Except.ok t) :
    (token_id_in = w1.token_id →
      t.amount_out = w2.liquidity -
        w1.liquidity * w2.liquidity / (w1.liquidity + amount_in)) ∧
    (token_id_in = w2.token_id → ¬ w2.token_id = w1.token_id →
      t.amount_out =
        w2.liquidity * w1.liquidity / (w2.liquidity - amount_in) -
          w1.liquidity) := by
  constructor
  · intro htin
    exact (swap_tokens_ok_slot1 h1 h2 htin hok).2.2.2.2.1
  · intro htin hne
    have hne2 : ¬ token_id_in = w1.token_id := by rw [htin]; exact hne
    exact (swap_tokens_ok_slot2 h1 h2 hne2 hok).2.2.2.2.1

/-- Witness for C3 at the pool (1000, 1000) with a slot-1 input of 3:
the computed output is 3 = 1000 − 1000·1000/1003. -/
theorem c3_swap_amount_out_formula_witness :
    ("token-a" = "token-a" →
      (3 : Nat) = 1000 - 1000 * 1000 / (1000 + 3)) ∧
    ("token-a" = "token-b" → ¬ ("token-b" = "token-a") →
      (3 : Nat) = 1000 * 1000 / (1000 - 3) - 1000) :=
  c3_swap_amount_out_formula (sampleContract 1000 1000 0 0)
    { token_id := "token-a", metadata := sampleMeta
      deposit := 0, liquidity := 1000 }
    { token_id := "token-b", metadata := sampleMeta
      deposit := 0, liquidity := 1000 }
    "user" "token-a" 3
    { receiver_id := "user", token_id_out := "token-b", amount_out := 3
      token_wallet_in_new :=
        { token_id := "token-a", metadata := sampleMeta
          deposit := 0, liquidity := 1003 }
      token_wallet_out_new :=
        { token_id := "token-b", metadata := sampleMeta
          deposit := 0, liquidity := 997 }
      token1_is_input := true, amount_in := 3 }
    rfl rfl rfl

/-- C1 is false on the code: from the committed pool (1000, 1000), the
completed slot-1 swap of 3 stages liquidity (1003, 997) and `on_swap_complete`
commits exactly those wallets, whose product 999991 is strictly below the
pre-swap product 1000000 — truncating `K / (L_in + amount_in)` downward makes
`amount_out` larger, so the product decreases whenever the division is
inexact. -/
theorem c1_product_decrease_counterexample :
    swap_tokens (sampleContract 1000 1000 0 0) "user" "token-a" 3 =
      Except.ok
        { receiver_id := "user", token_id_out := "token-b", amount_out := 3
          token_wallet_in_new :=
            { token_id := "token-a", metadata := sampleMeta
              deposit := 0, liquidity := 1003 }
          token_wallet_out_new :=
            { token_id := "token-b", metadata := sampleMeta
              deposit := 0, liquidity := 997 }
          token1_is_input := true, amount_in := 3 } ∧
    (on_swap_complete (sampleContract 1000 1000 0 0)
        { token_id := "token-a", metadata := sampleMeta
          deposit := 0, liquidity := 1003 }
        { token_id := "token-b", metadata := sampleMeta
          deposit := 0, liquidity := 997 }
        true 3 true).1.token1_wallet =
      some { token_id := "token-a", metadata := sampleMeta
             deposit := 0, liquidity := 1003 } ∧
    (on_swap_complete (sampleContract 1000 1000 0 0)
        { token_id := "token-a", metadata := sampleMeta
          deposit := 0, liquidity := 1003 }
        { token_id := "token-b", metadata := sampleMeta
          deposit := 0, liquidity := 997 }
        true 3 true).1.token2_wallet =
      some { token_id := "token-b", metadata := sampleMeta
             deposit := 0, liquidity := 997 } ∧
    1003 * 997 < 1000 * 1000 := by
  refine ⟨rfl, rfl, rfl, ?_⟩
  norm_num

/-- C1 (amended): for a completed swap whose input asset is the slot-1
wallet, the committed product of the two liquidity balances is at most the
pre-swap product, and it exceeds the pre-swap product minus
(L_in + amount_in); the non-decrease claimed by the spec fails whenever the
division is inexact, and for slot-2 input the product can move in either
direction. -/
theorem c1_amended_committed_product_bounds (c c2 : Contract)
    (w1 w2 : TokenWallet) (sender token_id_in : String) (amount_in : Nat)
    (t : SwapTransfer)
    (h1 : c.token1_wallet = some w1) (h2 : c.token2_wallet = some w2)
    (htin : token_id_in = w1.token_id)
    (hok : swap_tokens c sender token_id_in amount_in = Except.ok t) :
    ∃ w1n w2n,
      (on_swap_complete c2 t.token_wallet_in_new t.token_wallet_out_new
          t.token1_is_input t.amount_in true).1.token1_wallet = some w1n ∧
      (on_swap_complete c2 t.token_wallet_in_new t.token_wallet_out_new
          t.token1_is_input t.amount_in true).1.token2_wallet = some w2n ∧
      w1n.liquidity * w2n.liquidity ≤ w1.liquidity * w2.liquidity ∧
      w1.liquidity * w2.liquidity <
        w1n.liquidity * w2n.liquidity + (w1.liquidity + amount_in) := by
  obtain ⟨-, -, hflag, -, -, hwin, hwout, hpos, -, -⟩ :=
    swap_tokens_ok_slot1 h1 h2 htin hok
  refine ⟨{ w1 with liquidity := w1.liquidity + amount_in },
    { w2 with liquidity :=
        w1.liquidity * w2.liquidity / (w1.liquidity + amount_in) }, ?_, ?_,
    ?_, ?_⟩
  · rw [hflag, hwin, hwout]
    simp [on_swap_complete]
  · rw [hflag, hwin, hwout]
    simp [on_swap_complete]
  · show (w1.liquidity + amount_in) *
        (w1.liquidity * w2.liquidity / (w1.liquidity + amount_in)) ≤
      w1.liquidity * w2.liquidity
    rw [mul_comm]
    exact Nat.div_mul_le_self _ _
  · show w1.liquidity * w2.liquidity <
      (w1.liquidity + amount_in) *
        (w1.liquidity * w2.liquidity / (w1.liquidity + amount_in)) +
        (w1.liquidity + amount_in)
    have hmod := Nat.div_add_mod (w1.liquidity * w2.liquidity)
      (w1.liquidity + amount_in)
    have hlt := Nat.mod_lt (w1.liquidity * w2.liquidity) hpos
    omega

/-- Witness for the amended C1 at the pool (1000, 1000) with a slot-1 input
of 3. -/
theorem c1_amended_committed_product_bounds_witness :
    ∃ w1n w2n,
      (on_swap_complete (sampleContract 1000 1000 0 0)
          { token_id := "token-a", metadata := sampleMeta
            deposit := 0, liquidity := 1003 }
          { token_id := "token-b", metadata := sampleMeta
            deposit := 0, liquidity := 997 }
          true 3 true).1.token1_wallet = some w1n ∧
      (on_swap_complete (sampleContract 1000 1000 0 0)
          { token_id := "token-a", metadata := sampleMeta
            deposit := 0, liquidity := 1003 }
          { token_id := "token-b", metadata := sampleMeta
            deposit := 0, liquidity := 997 }
          true 3 true).1.token2_wallet = some w2n ∧
      w1n.liquidity * w2n.liquidity ≤ 1000 * 1000 ∧
      1000 * 1000 < w1n.liquidity * w2n.liquidity + (1000 + 3) :=
  c1_amended_committed_product_bounds (sampleContract 1000 1000 0 0)
    (sampleContract 1000 1000 0 0)
    { token_id := "token-a", metadata := sampleMeta
      deposit := 0, liquidity := 1000 }
    { token_id := "token-b", metadata := sampleMeta
      deposit := 0, liquidity := 1000 }
    "user" "token-a" 3
    { receiver_id := "user", token_id_out := "token-b", amount_out := 3
      token_wallet_in_new :=
        { token_id := "token-a", metadata := sampleMeta
          deposit := 0, liquidity := 1003 }
      token_wallet_out_new :=
        { token_id := "token-b", metadata := sampleMeta
          deposit := 0, liquidity := 997 }
      token1_is_input := true, amount_in := 3 }
    rfl rfl rfl rfl

/-- C2 is false on the code (a code bug): with wallets for "token-a" and
"token-b", a swap request for the foreign asset "token-c" is not rejected —
`get_swap_tokens_wallets_mut`'s wildcard arm treats every id other than the
slot-1 id as the slot-2 input wallet, so the swap proceeds, crediting the
slot-2 wallet's liquidity and paying out slot-1 tokens.  By contrast the
deposit path's `get_token_wallet_mut` does reject the same id with the
unsupported-asset error, which is the spec's evident intent for the swap path
too. -/
theorem c2_unknown_asset_swap_accepted :
    swap_tokens (sampleContract 1000 1000 0 0) "user" "token-c" 10 =
      Except.ok
        { receiver_id := "user", token_id_out := "token-a", amount_out := 10
          token_wallet_in_new :=
            { token_id := "token-b", metadata := sampleMeta
              deposit := 0, liquidity := 1010 }
          token_wallet_out_new :=
            { token_id := "token-a", metadata := sampleMeta
              deposit := 0, liquidity := 990 }
          token1_is_input := false, amount_in := 10 } ∧
    get_token_wallet (sampleContract 1000 1000 0 0) "token-c" =
      Except.error "Token is not supported" := by
  exact ⟨rfl, rfl⟩

/-- C4 is false on the code: an underflow of `L_in − amount_in` (slot-2 input
20 against liquidity 10) yields the error string "Computation overflow", not
an insufficient-liquidity error, and an overflow of `L_in + amount_in` (at
128-bit width) yields "Input token liquidity overflow", not the computation
overflow error the claim assigns to it. -/
theorem c4_error_identity_counterexample :
    swap_tokens (sampleContract 10 10 0 0) "user" "token-b" 20 =
      Except.error "Computation overflow" ∧
    swap_tokens (sampleContract (2 ^ 128 - 1) 10 0 0) "user" "token-a" 1 =
      Except.error "Input token liquidity overflow" := by
  exact ⟨rfl, rfl⟩

/-- C4 (amended): the swap guards exist but carry other error identities than
the claim states — an underflow of `L_in − amount_in` fails with
"Computation overflow" (the shared error of the wide-arithmetic chain); an
overflow of `L_in + amount_in` passes the 256-bit chain and fails at the
128-bit staging step with "Input token liquidity overflow"; a slot-2
`amount_out` exceeding `L_out` fails at staging with "Output token liquidity
overflow"; and whenever the external transfer is issued (the `ok` case) every
check has already passed: the staged input liquidity is in `u128` range and
the staged output liquidity plus `amount_out` reconstitutes the output
wallet's liquidity. -/
theorem c4_amended_guard_errors (c : Contract) (w1 w2 : TokenWallet)
    (sender token_id_in : String) (amount_in : Nat)
    (h1 : c.token1_wallet = some w1) (h2 : c.token2_wallet = some w2)
    (hb1 : w1.liquidity < u128Bound) (hb2 : w2.liquidity < u128Bound) :
    (¬ token_id_in = w1.token_id → w2.liquidity < amount_in →
      swap_tokens c sender token_id_in amount_in =
        Except.error "Computation overflow") ∧
    (token_id_in = w1.token_id → amount_in < u128Bound →
      u128Bound ≤ w1.liquidity + amount_in →
      swap_tokens c sender token_id_in amount_in =
        Except.error "Input token liquidity overflow") ∧
    (¬ token_id_in = w1.token_id → amount_in ≤ w2.liquidity →
      ¬ (w2.liquidity - amount_in = 0) →
      w1.liquidity ≤
        w2.liquidity * w1.liquidity / (w2.liquidity - amount_in) →
      w2.liquidity * w1.liquidity / (w2.liquidity - amount_in) -
          w1.liquidity < u128Bound →
      w2.liquidity + amount_in < u128Bound →
      w1.liquidity <
        w2.liquidity * w1.liquidity / (w2.liquidity - amount_in) -
          w1.liquidity →
      swap_tokens c sender token_id_in amount_in =
        Except.error "Output token liquidity overflow") ∧
    (∀ t, swap_tokens c sender token_id_in amount_in = Except.ok t →
      t.token_wallet_in_new.liquidity < u128Bound ∧
      (t.token1_is_input = true →
        t.token_wallet_out_new.liquidity + t.amount_out = w2.liquidity) ∧
      (t.token1_is_input = false →
        t.token_wallet_out_new.liquidity + t.amount_out = w1.liquidity)) := by
  refine ⟨?_, ?_, ?_, ?_⟩
  · intro htin hlt
    have hK : w2.liquidity * w1.liquidity < u256Bound :=
      mul_lt_u256Bound hb2 hb1
    simp [swap_tokens, get_swap_tokens_wallets, h1, h2, htin,
      compute_tokens_ratio, u256_checked_mul, hK, u256_checked_sub,
      Nat.not_le.mpr hlt]
  · intro htin hba hov
    subst htin
    have hK : w1.liquidity * w2.liquidity < u256Bound :=
      mul_lt_u256Bound hb1 hb2
    have h0 : 0 < u128Bound := by norm_num [u128Bound]
    have hpos : 0 < w1.liquidity + amount_in := by omega
    have hsum : w1.liquidity + amount_in < u256Bound := by
      have hle : u128Bound + u128Bound ≤ u256Bound := by
        norm_num [u128Bound, u256Bound]
      omega
    have hres : w1.liquidity * w2.liquidity / (w1.liquidity + amount_in) ≤
        w2.liquidity := by
      have hmle : w1.liquidity * w2.liquidity ≤
          (w1.liquidity + amount_in) * w2.liquidity :=
        Nat.mul_le_mul_right _ (Nat.le_add_right _ _)
      have hdiv := Nat.div_le_div_right
        (c := w1.liquidity + amount_in) hmle
      rwa [Nat.mul_div_cancel_left _ hpos] at hdiv
    have hfit : w2.liquidity -
        w1.liquidity * w2.liquidity / (w1.liquidity + amount_in) <
        u128Bound := Nat.lt_of_le_of_lt (Nat.sub_le _ _) hb2
    have hnin : ¬ (w1.liquidity + amount_in < u128Bound) := by omega
    simp [swap_tokens, get_swap_tokens_wallets, h1, h2,
      compute_tokens_ratio, u256_checked_mul, hK, u256_checked_add, hsum,
      u256_checked_div, Nat.pos_iff_ne_zero.mp hpos, u256_checked_sub, hres,
      u256_as_u128, hfit, u128_checked_add, hnin]
  · intro htin hsuble hnz hge hfit hinok hout
    have hK : w2.liquidity * w1.liquidity < u256Bound :=
      mul_lt_u256Bound hb2 hb1
    have hnout : ¬ (w2.liquidity * w1.liquidity / (w2.liquidity - amount_in) -
        w1.liquidity ≤ w1.liquidity) := Nat.not_le.mpr hout
    simp [swap_tokens, get_swap_tokens_wallets, h1, h2, htin,
      compute_tokens_ratio, u256_checked_mul, hK, u256_checked_sub, hsuble,
      u256_checked_div, hnz, hge, u256_as_u128, hfit, u128_checked_add,
      hinok, u128_checked_sub, hnout]
  · intro t hok
    by_cases htin : token_id_in = w1.token_id
    · obtain ⟨-, -, hflag, -, hamt, hwin, hwout, -, hinb, hresle⟩ :=
        swap_tokens_ok_slot1 h1 h2 htin hok
      refine ⟨by rw [hwin]; exact hinb, ?_, ?_⟩
      · intro _
        rw [hwout, hamt]
        show w1.liquidity * w2.liquidity / (w1.liquidity + amount_in) +
          (w2.liquidity -
            w1.liquidity * w2.liquidity / (w1.liquidity + amount_in)) =
          w2.liquidity
        generalize hq : w1.liquidity * w2.liquidity /
          (w1.liquidity + amount_in) = q at hresle ⊢
        omega
      · intro hfalse
        rw [hflag] at hfalse
        exact absurd hfalse (by simp)
    · obtain ⟨-, -, hflag, -, hamt, hwin, hwout, -, -, -, -, hinb, houtle⟩ :=
        swap_tokens_ok_slot2 h1 h2 htin hok
      refine ⟨by rw [hwin]; exact hinb, ?_, ?_⟩
      · intro htrue
        rw [hflag] at htrue
        exact absurd htrue (by simp)
      · intro _
        rw [hamt] at houtle
        rw [hwout, hamt]
        show w1.liquidity -
            (w2.liquidity * w1.liquidity / (w2.liquidity - amount_in) -
              w1.liquidity) +
          (w2.liquidity * w1.liquidity / (w2.liquidity - amount_in) -
            w1.liquidity) = w1.liquidity
        generalize hq : w2.liquidity * w1.liquidity /
          (w2.liquidity - amount_in) = q at houtle ⊢
        omega

/-- Witness for the amended C4 at the pool (10, 10): the slot-2 request of 20
underflows and fails with "Computation overflow". -/
theorem c4_amended_guard_errors_witness :
    (¬ "token-b" = "token-a" → (10 : Nat) < 20 →
      swap_tokens (sampleContract 10 10 0 0) "user" "token-b" 20 =
        Except.error "Computation overflow") ∧
    ("token-b" = "token-a" → (20 : Nat) < u128Bound →
      u128Bound ≤ 10 + 20 →
      swap_tokens (sampleContract 10 10 0 0) "user" "token-b" 20 =
        Except.error "Input token liquidity overflow") ∧
    (¬ "token-b" = "token-a" → (20 : Nat) ≤ 10 →
      ¬ ((10 : Nat) - 20 = 0) →
      (10 : Nat) ≤ 10 * 10 / (10 - 20) →
      (10 : Nat) * 10 / (10 - 20) - 10 < u128Bound →
      (10 : Nat) + 20 < u128Bound →
      (10 : Nat) < 10 * 10 / (10 - 20) - 10 →
      swap_tokens (sampleContract 10 10 0 0) "user" "token-b" 20 =
        Except.error "Output token liquidity overflow") ∧
    (∀ t, swap_tokens (sampleContract 10 10 0 0) "user" "token-b" 20 =
        Except.ok t →
      t.token_wallet_in_new.liquidity < u128Bound ∧
      (t.token1_is_input = true →
        t.token_wallet_out_new.liquidity + t.amount_out = 10) ∧
      (t.token1_is_input = false →
        t.token_wallet_out_new.liquidity + t.amount_out = 10)) :=
  c4_amended_guard_errors (sampleContract 10 10 0 0)
    { token_id := "token-a", metadata := sampleMeta
      deposit := 0, liquidity := 10 }
    { token_id := "token-b", metadata := sampleMeta
      deposit := 0, liquidity := 10 }
    "user" "token-b" 20 rfl rfl (by norm_num [u128Bound])
    (by norm_num [u128Bound])

/-- C5 is false on the code: in the scenario where asset1's metadata fetch
and registration succeed but asset2's registration fails, the single
combined callback panics ("Token2 wallet failed to register"), and since a
panicked call commits none of its writes, asset1's wallet is NOT installed —
the body had already staged the slot-1 install (second conjunct), but the
failed call discards it (first conjunct).  There is also no entry point that
provisions one asset alone: `create_wallets` always takes both tokens. -/
theorem c5_partial_provisioning_counterexample :
    on_created_tokens_wallets emptyContract "token-a" "token-b"
      (some sampleMeta) (some { total := 0, available := 0 })
      (some sampleMeta) none =
      Except.error "Token2 wallet failed to register" ∧
    (on_created_tokens_wallets_body emptyContract "token-a" "token-b"
      (some sampleMeta) (some { total := 0, available := 0 })
      (some sampleMeta) none).1.token1_wallet =
      some (TokenWallet.new "token-a" sampleMeta) ∧
    (on_created_tokens_wallets_body emptyContract "token-a" "token-b"
      (some sampleMeta) (some { total := 0, available := 0 })
      (some sampleMeta) none).1.token2_wallet = none := by
  exact ⟨rfl, rfl, rfl⟩

/-- C5 (amended): wallet provisioning is all-or-nothing per callback — the
provisioning callback succeeds exactly when all four sub-operation results
(metadata and registration of both assets) succeeded, in which case it
installs freshly constructed zero-balance wallets into both slots; any
failure panics the callback, so neither wallet is installed and a repeat
call must provision both assets again. -/
theorem c5_amended_provisioning_all_or_nothing (c : Contract)
    (t1 t2 : String) (m1 m2 : Option FungibleTokenMetadata)
    (sb1 sb2 : Option StorageBalance) :
    ((∃ c2, on_created_tokens_wallets c t1 t2 m1 sb1 m2 sb2 =
        Except.ok c2) ↔
      (m1.isSome ∧ sb1.isSome ∧ m2.isSome ∧ sb2.isSome)) ∧
    (∀ c2, on_created_tokens_wallets c t1 t2 m1 sb1 m2 sb2 = Except.ok c2 →
      ∃ mm1 mm2, m1 = some mm1 ∧ m2 = some mm2 ∧
        c2.token1_wallet = some (TokenWallet.new t1 mm1) ∧
        c2.token2_wallet = some (TokenWallet.new t2 mm2)) := by
  cases sb1 <;> cases m1 <;> cases sb2 <;> cases m2 <;>
    simp [on_created_tokens_wallets, on_created_tokens_wallets_body]

/-- Witness for the amended C5: all four results succeed, both wallets are
installed fresh. -/
theorem c5_amended_provisioning_all_or_nothing_witness :
    ((∃ c2, on_created_tokens_wallets emptyContract "token-a" "token-b"
        (some sampleMeta) (some { total := 0, available := 0 })
        (some sampleMeta) (some { total := 0, available := 0 }) =
        Except.ok c2) ↔
      ((some sampleMeta).isSome ∧
        (some (StorageBalance.mk 0 0)).isSome ∧
        (some sampleMeta).isSome ∧
        (some (StorageBalance.mk 0 0)).isSome)) ∧
    (∀ c2, on_created_tokens_wallets emptyContract "token-a" "token-b"
        (some sampleMeta) (some { total := 0, available := 0 })
        (some sampleMeta) (some { total := 0, available := 0 }) =
        Except.ok c2 →
      ∃ mm1 mm2, some sampleMeta = some mm1 ∧ some sampleMeta = some mm2 ∧
        c2.token1_wallet = some (TokenWallet.new "token-a" mm1) ∧
        c2.token2_wallet = some (TokenWallet.new "token-b" mm2)) :=
  c5_amended_provisioning_all_or_nothing emptyContract "token-a" "token-b"
    (some sampleMeta) (some sampleMeta)
    (some { total := 0, available := 0 })
    (some { total := 0, available := 0 })

/-- C10: every successful run of the wallet-provisioning callback installs
freshly constructed wallets with deposit 0 and liquidity 0 into both slots,
for an arbitrary prior state — in particular re-running provisioning on a
pool whose wallets hold non-zero balances overwrites them and erases the
balances. -/
theorem c10_provisioning_overwrites_with_zero_wallets (c : Contract)
    (t1 t2 : String) (m1 m2 : Option FungibleTokenMetadata)
    (sb1 sb2 : Option StorageBalance) (c2 : Contract)
    (hok : on_created_tokens_wallets c t1 t2 m1 sb1 m2 sb2 = Except.ok c2) :
    ∃ mm1 mm2, m1 = some mm1 ∧ m2 = some mm2 ∧
      c2.token1_wallet = some
        { token_id := t1, metadata := mm1, deposit := 0, liquidity := 0 } ∧
      c2.token2_wallet = some
        { token_id := t2, metadata := mm2, deposit := 0, liquidity := 0 } := by
  cases sb1 <;> cases m1 <;> cases sb2 <;> cases m2 <;>
    (simp [on_created_tokens_wallets, on_created_tokens_wallets_body,
      TokenWallet.new] at hok ⊢
     try simp [← hok])

/-- Witness for C10 on a pool whose wallets hold non-zero deposits and
liquidity: the re-provisioned wallets are zeroed. -/
theorem c10_provisioning_overwrites_with_zero_wallets_witness :
    ∃ mm1 mm2, some sampleMeta = some mm1 ∧ some sampleMeta = some mm2 ∧
      (call_result (sampleContract 1000 1000 5 5)
        (on_created_tokens_wallets (sampleContract 1000 1000 5 5)
          "token-a" "token-b" (some sampleMeta)
          (some { total := 0, available := 0 }) (some sampleMeta)
          (some { total := 0, available := 0 }))).token1_wallet = some
        { token_id := "token-a", metadata := mm1
          deposit := 0, liquidity := 0 } ∧
      (call_result (sampleContract 1000 1000 5 5)
        (on_created_tokens_wallets (sampleContract 1000 1000 5 5)
          "token-a" "token-b" (some sampleMeta)
          (some { total := 0, available := 0 }) (some sampleMeta)
          (some { total := 0, available := 0 }))).token2_wallet = some
        { token_id := "token-b", metadata := mm2
          deposit := 0, liquidity := 0 } :=
  c10_provisioning_overwrites_with_zero_wallets
    (sampleContract 1000 1000 5 5) "token-a" "token-b"
    (some sampleMeta) (some sampleMeta)
    (some { total := 0, available := 0 })
    (some { total := 0, available := 0 }) _ rfl

/-- C6 is false on the code: the deposit path of `ft_on_transfer`
(`on_transfer_deposit`) writes a wallet's deposit balance, a fourth mutation
point outside the three the claim enumerates (liquidity add/remove commit,
wallet-provisioning commit, swap-resolution commit).  Concretely, an untagged
owner transfer of 10 on "token-a" raises the slot-1 deposit from 5 to 15. -/
theorem c6_deposit_write_counterexample :
    (ft_on_transfer (sampleContract 1000 1000 5 5) "owner" "token-a" 10
      false).1.token1_wallet =
      some { token_id := "token-a", metadata := sampleMeta
             deposit := 15, liquidity := 1000 } ∧
    (ft_on_transfer (sampleContract 1000 1000 5 5) "owner" "token-a" 10
      false).2 = FtOnTransferOutcome.value 0 ∧
    (sampleContract 1000 1000 5 5).token1_wallet =
      some { token_id := "token-a", metadata := sampleMeta
             deposit := 5, liquidity := 1000 } := by
  exact ⟨rfl, rfl, rfl⟩

/-- C6 (amended): wallet deposit and liquidity balances are written at FOUR
points — the liquidity add/remove commit, the wallet-provisioning commit, the
swap-resolution commit, and additionally the deposit commit inside
`ft_on_transfer`'s deposit path.  Every other code path leaves both wallets
unchanged: the synchronous phase of a swap-tagged transfer never writes the
pool state, a failed swap resolution discards the staged wallets, the
synchronous phase of wallet creation writes nothing, and the three
storage-management entry points only touch the accounts map. -/
theorem c6_amended_wallet_write_points :
    (∀ (c : Contract) (s tk : String) (a : Nat),
      (ft_on_transfer c s tk a true).1 = c) ∧
    (∀ (c : Contract) (win wout : TokenWallet) (flag : Bool) (amt : Nat),
      (on_swap_complete c win wout flag amt false).1 = c) ∧
    (∀ (c : Contract) (p : String) (att : Nat) (t1 t2 : String)
        (c2 : Contract),
      owner_create_wallets c p att t1 t2 = Except.ok c2 → c2 = c) ∧
    (∀ (c : Contract) (p : String) (att : Nat) (aid : Option String)
        (ro : Option Bool) (mb : Nat) (c2 : Contract),
      storage_deposit c p att aid ro mb = Except.ok c2 →
      c2.token1_wallet = c.token1_wallet ∧
      c2.token2_wallet = c.token2_wallet) ∧
    (∀ (c : Contract) (p : String) (att : Nat) (amt : Option Nat) (mb : Nat)
        (c2 : Contract),
      storage_withdraw c p att amt mb = Except.ok c2 →
      c2.token1_wallet = c.token1_wallet ∧
      c2.token2_wallet = c.token2_wallet) ∧
    (∀ (c : Contract) (p : String) (att : Nat) (f : Option Bool)
        (r : Contract × Bool),
      storage_unregister c p att f = Except.ok r →
      r.1.token1_wallet = c.token1_wallet ∧
      r.1.token2_wallet = c.token2_wallet) := by
  refine ⟨?_, ?_, ?_, ?_, ?_, ?_⟩
  · intro c s tk a
    simp only [ft_on_transfer, if_true]
    cases h : swap_tokens c s tk a <;> simp
  · intro c win wout flag amt
    simp [on_swap_complete]
  · intro c p att t1 t2 c2 h
    simp only [owner_create_wallets] at h
    split at h
    · exact absurd h (by simp)
    · split at h
      · exact absurd h (by simp)
      · simp at h
        exact h.symm
  · intro c p att aid ro mb c2 h
    simp only [storage_deposit] at h
    repeat' (split at h <;> try simp at h)
    all_goals (rw [← h])
    all_goals exact ⟨rfl, rfl⟩
  · intro c p att amt mb c2 h
    simp only [storage_withdraw] at h
    repeat' (split at h <;> try simp at h)
    all_goals (rw [← h])
    all_goals exact ⟨rfl, rfl⟩
  · intro c p att f r h
    simp only [storage_unregister] at h
    repeat' (split at h <;> try simp at h)
    all_goals (rw [← h])
    all_goals exact ⟨rfl, rfl⟩

/-- Witness for the amended C6: a swap-tagged transfer leaves the sample pool
state unchanged. -/
theorem c6_amended_wallet_write_points_witness :
    (ft_on_transfer (sampleContract 1000 1000 5 5) "user" "token-a" 10
      true).1 = sampleContract 1000 1000 5 5 ∧
    (on_swap_complete (sampleContract 1000 1000 5 5)
      (TokenWallet.new "token-a" sampleMeta)
      (TokenWallet.new "token-b" sampleMeta) true 7 false).1 =
      sampleContract 1000 1000 5 5 :=
  ⟨c6_amended_wallet_write_points.1 (sampleContract 1000 1000 5 5) "user"
      "token-a" 10,
    c6_amended_wallet_write_points.2.1 (sampleContract 1000 1000 5 5)
      (TokenWallet.new "token-a" sampleMeta)
      (TokenWallet.new "token-b" sampleMeta) true 7⟩

/-- C7: every inbound transfer is refunded in full on any failure of the
routed handler and refunded nothing on success — for the deposit path a
synchronous error returns the whole `amount` and leaves the state as it was,
while success returns 0; for the swap path a synchronous error returns the
whole `amount`, and the pending resolution refunds 0 when the external
transfer succeeded and the whole `amount` (the callback's `amount_in`, which
equals the transferred amount) when it failed.  No other refund value is
possible. -/
theorem c7_full_refund_policy (c : Contract) (s tk : String) (a : Nat) :
    (∀ e, on_transfer_deposit c s tk a = Except.error e →
      ft_on_transfer c s tk a false = (c, FtOnTransferOutcome.value a)) ∧
    (∀ c2, on_transfer_deposit c s tk a = Except.ok c2 →
      ft_on_transfer c s tk a false = (c2, FtOnTransferOutcome.value 0)) ∧
    (∀ e, swap_tokens c s tk a = Except.error e →
      ft_on_transfer c s tk a true = (c, FtOnTransferOutcome.value a)) ∧
    (∀ t, swap_tokens c s tk a = Except.ok t →
      ft_on_transfer c s tk a true = (c, FtOnTransferOutcome.pending t) ∧
      t.amount_in = a ∧
      (∀ c2, (on_swap_complete c2 t.token_wallet_in_new
          t.token_wallet_out_new t.token1_is_input t.amount_in true).2 = 0 ∧
        (on_swap_complete c2 t.token_wallet_in_new t.token_wallet_out_new
          t.token1_is_input t.amount_in false).2 = a)) := by
  refine ⟨?_, ?_, ?_, ?_⟩
  · intro e h
    simp [ft_on_transfer, h]
  · intro c2 h
    simp [ft_on_transfer, h]
  · intro e h
    simp [ft_on_transfer, h]
  · intro t h
    have hamt := swap_tokens_ok_amount_in h
    refine ⟨by simp [ft_on_transfer, h], hamt, ?_⟩
    intro c2
    cases hf : t.token1_is_input <;>
      simp [on_swap_complete, hf, hamt]

/-- Witness for C7 at a concrete failing deposit (non-owner sender): the full
amount is refunded. -/
theorem c7_full_refund_policy_witness :
    (∀ e, on_transfer_deposit (sampleContract 1000 1000 5 5) "mallory"
        "token-a" 10 = Except.error e →
      ft_on_transfer (sampleContract 1000 1000 5 5) "mallory" "token-a" 10
        false =
        (sampleContract 1000 1000 5 5, FtOnTransferOutcome.value 10)) ∧
    (∀ c2, on_transfer_deposit (sampleContract 1000 1000 5 5) "mallory"
        "token-a" 10 = Except.ok c2 →
      ft_on_transfer (sampleContract 1000 1000 5 5) "mallory" "token-a" 10
        false = (c2, FtOnTransferOutcome.value 0)) ∧
    (∀ e, swap_tokens (sampleContract 1000 1000 5 5) "mallory" "token-a" 10 =
        Except.error e →
      ft_on_transfer (sampleContract 1000 1000 5 5) "mallory" "token-a" 10
        true =
        (sampleContract 1000 1000 5 5, FtOnTransferOutcome.value 10)) ∧
    (∀ t, swap_tokens (sampleContract 1000 1000 5 5) "mallory" "token-a" 10 =
        Except.ok t →
      ft_on_transfer (sampleContract 1000 1000 5 5) "mallory" "token-a" 10
        true =
        (sampleContract 1000 1000 5 5, FtOnTransferOutcome.pending t) ∧
      t.amount_in = 10 ∧
      (∀ c2, (on_swap_complete c2 t.token_wallet_in_new
          t.token_wallet_out_new t.token1_is_input t.amount_in true).2 = 0 ∧
        (on_swap_complete c2 t.token_wallet_in_new t.token_wallet_out_new
          t.token1_is_input t.amount_in false).2 = 10)) :=
  c7_full_refund_policy (sampleContract 1000 1000 5 5) "mallory" "token-a" 10

/-- C8: a failing `add_liquidity` or `remove_liquidity` call commits no
balance change (the `Err` return panics through `#[handle_result]`, so the
host keeps the pre-call state), and a successful call implies every check of
both assets passed.  Note the atomicity is delivered by the host's
revert-on-panic, not by check-before-mutate ordering: the literal body
(`add_liquidity_body`) does write the slot-1 wallet before checking slot-2. -/
theorem c8_liquidity_ops_all_or_nothing (c : Contract) (p : String)
    (amts : Nat × Nat) :
    (∀ e, add_liquidity c p amts = Except.error e →
      call_result c (add_liquidity c p amts) = c) ∧
    (∀ e, remove_liquidity c p amts = Except.error e →
      call_result c (remove_liquidity c p amts) = c) ∧
    (∀ c2, add_liquidity c p amts = Except.ok c2 →
      ∃ w1 w2, c.token1_wallet = some w1 ∧ c.token2_wallet = some w2 ∧
        amts.1 ≤ w1.deposit ∧ amts.2 ≤ w2.deposit ∧
        w1.liquidity + amts.1 < u128Bound ∧
        w2.liquidity + amts.2 < u128Bound) ∧
    (∀ c2, remove_liquidity c p amts = Except.ok c2 →
      ∃ w1 w2, c.token1_wallet = some w1 ∧ c.token2_wallet = some w2 ∧
        amts.1 ≤ w1.liquidity ∧ amts.2 ≤ w2.liquidity ∧
        w1.deposit + amts.1 < u128Bound ∧
        w2.deposit + amts.2 < u128Bound) := by
  refine ⟨?_, ?_, ?_, ?_⟩
  · intro e h
    simp [call_result, h]
  · intro e h
    simp [call_result, h]
  · intro c2 h
    obtain ⟨w1, w2, hw1, hw2, -, hd1, hd2, hl1, hl2, -⟩ :=
      add_liquidity_ok_inv h
    exact ⟨w1, w2, hw1, hw2, hd1, hd2, hl1, hl2⟩
  · intro c2 h
    obtain ⟨w1, w2, hw1, hw2, -, hl1, hl2, hd1, hd2, -⟩ :=
      remove_liquidity_ok_inv h
    exact ⟨w1, w2, hw1, hw2, hl1, hl2, hd1, hd2⟩

/-- Witness for C8 at a pool whose deposits (5, 5) cannot cover an add of
(10, 10): the failing call leaves the committed state unchanged. -/
theorem c8_liquidity_ops_all_or_nothing_witness :
    (∀ e, add_liquidity (sampleContract 1000 1000 5 5) "owner" (10, 10) =
        Except.error e →
      call_result (sampleContract 1000 1000 5 5)
        (add_liquidity (sampleContract 1000 1000 5 5) "owner" (10, 10)) =
        sampleContract 1000 1000 5 5) ∧
    (∀ e, remove_liquidity (sampleContract 1000 1000 5 5) "owner" (10, 10) =
        Except.error e →
      call_result (sampleContract 1000 1000 5 5)
        (remove_liquidity (sampleContract 1000 1000 5 5) "owner" (10, 10)) =
        sampleContract 1000 1000 5 5) ∧
    (∀ c2, add_liquidity (sampleContract 1000 1000 5 5) "owner" (10, 10) =
        Except.ok c2 →
      ∃ w1 w2, (sampleContract 1000 1000 5 5).token1_wallet = some w1 ∧
        (sampleContract 1000 1000 5 5).token2_wallet = some w2 ∧
        (10, 10).1 ≤ w1.deposit ∧ (10, 10).2 ≤ w2.deposit ∧
        w1.liquidity + (10, 10).1 < u128Bound ∧
        w2.liquidity + (10, 10).2 < u128Bound) ∧
    (∀ c2, remove_liquidity (sampleContract 1000 1000 5 5) "owner"
        (10, 10) = Except.ok c2 →
      ∃ w1 w2, (sampleContract 1000 1000 5 5).token1_wallet = some w1 ∧
        (sampleContract 1000 1000 5 5).token2_wallet = some w2 ∧
        (10, 10).1 ≤ w1.liquidity ∧ (10, 10).2 ≤ w2.liquidity ∧
        w1.deposit + (10, 10).1 < u128Bound ∧
        w2.deposit + (10, 10).2 < u128Bound) :=
  c8_liquidity_ops_all_or_nothing (sampleContract 1000 1000 5 5) "owner"
    (10, 10)

/-- C9: when `add_liquidity(amounts)` succeeds and the immediately following
`remove_liquidity(amounts)` with identical values succeeds (no intervening
swap), both wallets — their deposit and liquidity balances included — are
restored exactly. -/
theorem c9_add_remove_roundtrip (c ca cb : Contract) (p : String)
    (amts : Nat × Nat)
    (hadd : add_liquidity c p amts = Except.ok ca)
    (hrem : remove_liquidity ca p amts = Except.ok cb) :
    cb.token1_wallet = c.token1_wallet ∧
    cb.token2_wallet = c.token2_wallet := by
  obtain ⟨w1, w2, hw1, hw2, -, hd1, hd2, -, -, -, -, -, ht1, ht2⟩ :=
    add_liquidity_ok_inv hadd
  obtain ⟨v1, v2, hv1, hv2, -, -, -, -, -, -, -, -, hu1, hu2⟩ :=
    remove_liquidity_ok_inv hrem
  rw [ht1] at hv1
  rw [ht2] at hv2
  injection hv1 with hv1e
  injection hv2 with hv2e
  subst hv1e
  subst hv2e
  simp only [] at hu1 hu2
  have e1 : w1.deposit - amts.1 + amts.1 = w1.deposit := by omega
  have e2 : w1.liquidity + amts.1 - amts.1 = w1.liquidity := by omega
  have e3 : w2.deposit - amts.2 + amts.2 = w2.deposit := by omega
  have e4 : w2.liquidity + amts.2 - amts.2 = w2.liquidity := by omega
  rw [e1, e2] at hu1
  rw [e3, e4] at hu2
  rw [hu1, hu2, hw1, hw2]
  exact ⟨rfl, rfl⟩

/-- Witness for C9: add (7, 5) to the pool (1000, 1000) with deposits
(50, 50), remove (7, 5) again — the original state returns exactly. -/
theorem c9_add_remove_roundtrip_witness :
    (sampleContract 1000 1000 50 50).token1_wallet =
      (sampleContract 1000 1000 50 50).token1_wallet ∧
    (sampleContract 1000 1000 50 50).token2_wallet =
      (sampleContract 1000 1000 50 50).token2_wallet :=
  c9_add_remove_roundtrip (sampleContract 1000 1000 50 50)
    (sampleContract 1007 1005 43 45) (sampleContract 1000 1000 50 50)
    "owner" (7, 5) rfl rfl

end SwapContract
